import Mathlib

/-!
Verification of the MPCD integrator orchestration layer
(`hoomd/mpcd/integrate.py`): a shallow embedding of the Python class
`integrator` — its constructor, `set_params` and `update_methods` — as pure
Lean functions over explicit controller, engine and context state, together
with theorems about the behaviour claimed by the design document.

Native engine calls (`setDeltaT`, `setIntegrator`, `addIntegrationMethod`,
…) are recorded in an explicit trace so that claims of the form "no native
call is made" are statable.  Error and warning messages written through
`hoomd.context.msg` are recorded in a message list.  The Python time step is
only ever stored and forwarded (never computed with), so it is modelled as a
rational number.
-/

namespace MPCD

/-- The native anisotropic-integration mode enum (`_md.IntegratorAnisotropicMode`). -/
inductive AnisoMode where
  | Automatic
  | Anisotropic
  | Isotropic
deriving DecidableEq, Repr

/-- The Python values that may be passed as the `aniso` argument: the three
dictionary keys of `_aniso_modes` (`None`, `True`, `False`) and any other
Python value, tagged by a natural number. -/
inductive PyVal where
  | pyNone
  | pyTrue
  | pyFalse
  | pyOther (tag : Nat)
deriving DecidableEq, Repr

/-- The class-level dictionary `integrator._aniso_modes`, as a lookup
function: `None ↦ Automatic`, `True ↦ Anisotropic`, `False ↦ Isotropic`,
anything else is not a key. -/
def aniso_modes : PyVal → Option AnisoMode
  | .pyNone => some .Automatic
  | .pyTrue => some .Anisotropic
  | .pyFalse => some .Isotropic
  | .pyOther _ => none

/-- The two streaming-method classes the constructor chooses between
(`_mpcd.StreamingMethod` on CPU, `_mpcd.StreamingMethodGPU` on CUDA). -/
inductive StreamClass where
  | StreamingMethod
  | StreamingMethodGPU
deriving DecidableEq, Repr

/-- A streaming-method instance, as constructed by the integrator:
`stream_class(data, currentTimeStep, period, -1)`. -/
structure StreamRef where
  cls : StreamClass
  startStep : Nat
  period : Int
  phase : Int
deriving DecidableEq, Repr

/-- Opaque handle to a native collision method. -/
abbrev CollideRef := Nat

/-- A Python integration-method object, as seen by `update_methods`: it
carries an opaque native handle `cpp_method`; `created` records the order in
which the object was created, which `update_methods` never consults. -/
structure Method where
  cpp_method : Nat
  created : Nat
deriving DecidableEq, Repr

/-- Native calls made against the engine, recorded as a trace. -/
inductive NativeCall where
  | createIntegrator (dt : Rat)
  | setMPCDCommunicator
  | setIntegrator
  | setDeltaT (dt : Rat)
  | setAnisotropicMode (m : AnisoMode)
  | createStreaming (cls : StreamClass)
  | removeAllIntegrationMethods
  | addIntegrationMethod (m : Nat)
  | setStreamingMethod
  | removeStreamingMethod
  | setCollisionMethod
  | removeCollisionMethod
deriving DecidableEq, Repr

/-- Messages written through `hoomd.context.msg`. -/
inductive Msg where
  | error (s : String)
  | warning (s : String)
deriving DecidableEq, Repr

/-- Python exceptions raised by the module.  The source raises
`RuntimeError` with a message; `notInitializedError` is the spec's name for
the failure of the inherited `check_initialization` (whose body is not part
of the visible file). -/
inductive PyError where
  | runtimeError (s : String)
  | notInitializedError
deriving DecidableEq, Repr

/-- The native `_mpcd.Integrator` engine state reached through
`cpp_integrator`: time step, anisotropic mode (`none` = never set since
construction), the ordered integration-method list, and the streaming and
collision strategy slots. -/
structure Engine where
  deltaT : Rat
  anisoMode : Option AnisoMode
  methods : List Nat
  streaming : Option StreamRef
  collision : Option CollideRef
deriving DecidableEq, Repr

/-- The Python-side fields of the `integrator` object: `dt`, `aniso`,
`period`, `_stream`, `_collide`, and whether `cpp_integrator` has been
attached (the `Active` state). -/
structure Integrator where
  dt : Rat
  aniso : PyVal
  period : Int
  stream : Option StreamRef
  collide : Option CollideRef
  cpp_exists : Bool
deriving DecidableEq, Repr

/-- The MPCD system object `hoomd.context.current.mpcd`; only whether its
communicator is set matters to the constructor. -/
structure MPCDSystem where
  hasComm : Bool
deriving DecidableEq, Repr

/-- The ambient simulation context consulted by the constructor:
`hoomd.context.current.mpcd`, `getCurrentTimeStep()`, and
`hoomd.context.exec_conf.isCUDAEnabled()`. -/
structure Context where
  mpcd : Option MPCDSystem
  currentTimeStep : Nat
  cudaEnabled : Bool
deriving DecidableEq, Repr

/-- Modelled from the spec: `self.check_initialization()` is inherited from
the base integrator class and its body is not part of the visible file; the
spec says mutating operations invoked before construction completes or
after teardown fail with `NotInitializedError`.  The `Active` state is
having a native integrator attached. -/
def check_initialization (integ : Integrator) : Option PyError :=
  if integ.cpp_exists then none else some .notInitializedError

/-- Result of a `set_params` call: the updated Python object and engine,
the native calls made, the messages emitted, and the exception if one was
raised. -/
structure SetParamsResult where
  integ : Integrator
  engine : Engine
  trace : List NativeCall
  msgs : List Msg
  error : Option PyError
deriving DecidableEq, Repr

/-- `integrator.set_params(dt, aniso)`.  Mirrors the source order exactly:
`check_initialization` first; then, if `dt` is provided, store it and call
`setDeltaT`; then, if `aniso` is not `None`, look it up in `_aniso_modes`
(raising on an unknown value before any aniso mutation), store it and call
`setAnisotropicMode`. -/
def set_params (integ : Integrator) (engine : Engine)
    (dtArg : Option Rat) (anisoArg : PyVal) : SetParamsResult :=
  match check_initialization integ with
  | some e => { integ := integ, engine := engine, trace := [], msgs := [], error := some e }
  | none =>
    let step1 : Integrator × Engine × List NativeCall :=
      match dtArg with
      | none => (integ, engine, [])
      | some d => ({ integ with dt := d }, { engine with deltaT := d },
                   [NativeCall.setDeltaT d])
    let integ1 := step1.1
    let engine1 := step1.2.1
    let tr1 := step1.2.2
    if anisoArg = PyVal.pyNone then
      { integ := integ1, engine := engine1, trace := tr1, msgs := [], error := none }
    else
      match aniso_modes anisoArg with
      | some m =>
          { integ := { integ1 with aniso := anisoArg },
            engine := { engine1 with anisoMode := some m },
            trace := tr1 ++ [NativeCall.setAnisotropicMode m],
            msgs := [], error := none }
      | none =>
          { integ := integ1, engine := engine1, trace := tr1,
            msgs := [Msg.error "mpcd.integrate: unknown anisotropic mode."],
            error := some (PyError.runtimeError "Error setting anisotropic integration mode.") }

/-- Outcome of running the constructor: either the constructed Python
object or the exception raised. -/
inductive InitOutcome where
  | ok (integ : Integrator)
  | error (e : PyError)
deriving DecidableEq, Repr

/-- Whether an `InitOutcome` is a successful construction. -/
def InitOutcome.isOk : InitOutcome → Bool
  | .ok _ => true
  | .error _ => false

/-- Global side effects of a constructor run: the native engine object if
one was created, whether `system.setIntegrator` installed it, the native
calls made, and the messages emitted.  These persist even when the
constructor raises. -/
structure World where
  engine : Option Engine
  registered : Bool
  trace : List NativeCall
  msgs : List Msg
deriving DecidableEq, Repr

/-- Result of a constructor run. -/
structure InitResult where
  world : World
  outcome : InitOutcome
deriving Repr

/-- `integrator.__init__(dt, period, aniso)`.  Mirrors the source order:
check `hoomd.context.current.mpcd` and raise if no MPCD system is
initialized; set the Python fields; create the native `_mpcd.Integrator`;
set the communicator if present; install via `system.setIntegrator`; if
`aniso` is not `None`, apply it via `set_params` (which may raise, leaving
the engine installed); finally create the default streaming method chosen
by `isCUDAEnabled()` and leave the collision slot empty.  Note that no
validation of `dt` or `period` is performed anywhere. -/
def integrator_init (ctx : Context) (dt : Rat) (period : Int) (aniso : PyVal) :
    InitResult :=
  match ctx.mpcd with
  | none =>
      let w : World :=
        { engine := none, registered := false, trace := [],
          msgs := [Msg.error "mpcd.integrate: an MPCD system must be initialized before the integrator"] }
      { world := w,
        outcome := .error (PyError.runtimeError "MPCD system not initialized") }
  | some sys =>
      let integ0 : Integrator :=
        { dt := dt, aniso := aniso, period := period,
          stream := none, collide := none, cpp_exists := true }
      let engine0 : Engine :=
        { deltaT := dt, anisoMode := none, methods := [],
          streaming := none, collision := none }
      let trace1 :=
        if sys.hasComm then
          [NativeCall.createIntegrator dt, NativeCall.setMPCDCommunicator,
           NativeCall.setIntegrator]
        else
          [NativeCall.createIntegrator dt, NativeCall.setIntegrator]
      let afterAniso : SetParamsResult :=
        if aniso = PyVal.pyNone then
          { integ := integ0, engine := engine0, trace := [], msgs := [], error := none }
        else
          set_params integ0 engine0 none aniso
      match afterAniso.error with
      | some e =>
          let w : World :=
            { engine := some afterAniso.engine, registered := true,
              trace := trace1 ++ afterAniso.trace, msgs := afterAniso.msgs }
          { world := w, outcome := .error e }
      | none =>
          let cls := if ¬ ctx.cudaEnabled then StreamClass.StreamingMethod
                     else StreamClass.StreamingMethodGPU
          let sref : StreamRef :=
            { cls := cls, startStep := ctx.currentTimeStep,
              period := period, phase := -1 }
          let w : World :=
            { engine := some afterAniso.engine, registered := true,
              trace := trace1 ++ afterAniso.trace ++ [NativeCall.createStreaming cls],
              msgs := afterAniso.msgs }
          { world := w,
            outcome := .ok { afterAniso.integ with stream := some sref, collide := none } }

/-- Result of an `update_methods` call. -/
structure UpdateMethodsResult where
  engine : Engine
  trace : List NativeCall
  msgs : List Msg
  error : Option PyError
deriving DecidableEq, Repr

/-- `integrator.update_methods()`.  Mirrors the source order:
`check_initialization` first; then `removeAllIntegrationMethods` followed by
`addIntegrationMethod(m.cpp_method)` for each entry of the context's
active-methods list in order; then push the streaming slot if occupied,
else warn and `removeStreamingMethod`; symmetrically for collision. -/
def update_methods (integ : Integrator) (engine : Engine)
    (activeMethods : List Method) : UpdateMethodsResult :=
  match check_initialization integ with
  | some e => { engine := engine, trace := [], msgs := [], error := some e }
  | none =>
    let engine1 : Engine := { engine with methods := [] }
    let engine2 : Engine :=
      activeMethods.foldl
        (fun e m => { e with methods := e.methods ++ [m.cpp_method] }) engine1
    let trace2 := NativeCall.removeAllIntegrationMethods ::
      activeMethods.map (fun m => NativeCall.addIntegrationMethod m.cpp_method)
    let step3 : Engine × List NativeCall × List Msg :=
      match integ.stream with
      | some s => ({ engine2 with streaming := some s },
                   trace2 ++ [NativeCall.setStreamingMethod], [])
      | none => ({ engine2 with streaming := none },
                 trace2 ++ [NativeCall.removeStreamingMethod],
                 [Msg.warning "Running mpcd without a streaming method!"])
    let engine3 := step3.1
    let trace3 := step3.2.1
    let msgs3 := step3.2.2
    let step4 : Engine × List NativeCall × List Msg :=
      match integ.collide with
      | some c => ({ engine3 with collision := some c },
                   trace3 ++ [NativeCall.setCollisionMethod], msgs3)
      | none => ({ engine3 with collision := none },
                 trace3 ++ [NativeCall.removeCollisionMethod],
                 msgs3 ++ [Msg.warning "Running mpcd without a collision method!"])
    { engine := step4.1, trace := step4.2.1, msgs := step4.2.2, error := none }

end MPCD

namespace MPCD

/-! ### Helper lemmas -/

theorem foldl_addMethods (ms : List Method) (e : Engine) :
    ms.foldl (fun e m => { e with methods := e.methods ++ [m.cpp_method] }) e =
    { e with methods := e.methods ++ ms.map Method.cpp_method } := by
  induction ms generalizing e with
  | nil => simp
  | cons m ms ih => simp [List.foldl, ih]

theorem update_methods_engine_eq (integ : Integrator) (engine : Engine)
    (ms : List Method) (h : integ.cpp_exists = true) :
    (update_methods integ engine ms).engine =
      { engine with
          methods := ms.map Method.cpp_method,
          streaming := integ.stream,
          collision := integ.collide } := by
  cases hs : integ.stream <;> cases hc : integ.collide <;>
    simp [update_methods, check_initialization, h, hs, hc, foldl_addMethods]

theorem update_methods_trace_eq (integ : Integrator) (engine : Engine)
    (ms : List Method) (h : integ.cpp_exists = true) :
    (update_methods integ engine ms).trace =
      NativeCall.removeAllIntegrationMethods ::
        (ms.map fun m => NativeCall.addIntegrationMethod m.cpp_method) ++
        ((if integ.stream.isSome then [NativeCall.setStreamingMethod]
          else [NativeCall.removeStreamingMethod]) ++
         (if integ.collide.isSome then [NativeCall.setCollisionMethod]
          else [NativeCall.removeCollisionMethod])) := by
  cases hs : integ.stream <;> cases hc : integ.collide <;>
    simp [update_methods, check_initialization, h, hs, hc]

theorem update_methods_msgs_eq (integ : Integrator) (engine : Engine)
    (ms : List Method) (h : integ.cpp_exists = true) :
    (update_methods integ engine ms).msgs =
      (if integ.stream.isSome then []
       else [Msg.warning "Running mpcd without a streaming method!"]) ++
      (if integ.collide.isSome then []
       else [Msg.warning "Running mpcd without a collision method!"]) := by
  cases hs : integ.stream <;> cases hc : integ.collide <;>
    simp [update_methods, check_initialization, h, hs, hc]

theorem update_methods_error_eq (integ : Integrator) (engine : Engine)
    (ms : List Method) (h : integ.cpp_exists = true) :
    (update_methods integ engine ms).error = none := by
  cases hs : integ.stream <;> cases hc : integ.collide <;>
    simp [update_methods, check_initialization, h, hs, hc]

end MPCD

namespace MPCD

/-! ### Concrete fixtures used by witnesses and counterexamples -/

/-- A context with an initialized MPCD system, no communicator, no CUDA. -/
def exCtx : Context := { mpcd := some { hasComm := false }, currentTimeStep := 0, cudaEnabled := false }

/-- A context with no MPCD system initialized. -/
def exCtxNoMPCD : Context := { mpcd := none, currentTimeStep := 0, cudaEnabled := false }

/-- A constructed (Active) integrator with `dt = 1`, isotropic mode, empty
slots. -/
def exInteg : Integrator :=
  { dt := 1, aniso := PyVal.pyFalse, period := 1,
    stream := none, collide := none, cpp_exists := true }

/-- An integrator that is not in the Active state (no native integrator). -/
def exIntegInactive : Integrator :=
  { dt := 1, aniso := PyVal.pyNone, period := 1,
    stream := none, collide := none, cpp_exists := false }

/-- An engine state matching `exInteg`. -/
def exEngine : Engine :=
  { deltaT := 1, anisoMode := some AnisoMode.Isotropic, methods := [3],
    streaming := none, collision := none }

/-- Two concrete integration-method objects; note their `created` stamps are
in the opposite order of their list position. -/
def exMethods : List Method := [{ cpp_method := 10, created := 2 }, { cpp_method := 20, created := 1 }]

end MPCD

namespace MPCD

/-! ### Claim theorems -/

/-- C1: for every ordered sequence of active methods, `update_methods`
first clears the engine's integration-method list
(`removeAllIntegrationMethods`) and then adds every entry of the
active-methods list in order, so afterwards the engine's method list equals
the given sequence of native handles in that exact order; and the result
depends only on that sequence of handles, not on the order in which the
method objects were created. -/
theorem C1_update_methods_order (integ : Integrator) (engine : Engine)
    (ms : List Method) (h : integ.cpp_exists = true) :
    (update_methods integ engine ms).engine.methods = ms.map Method.cpp_method ∧
    (∃ rest, (update_methods integ engine ms).trace =
      NativeCall.removeAllIntegrationMethods ::
        (ms.map fun m => NativeCall.addIntegrationMethod m.cpp_method) ++ rest) ∧
    ∀ ms2 : List Method, ms2.map Method.cpp_method = ms.map Method.cpp_method →
      (update_methods integ engine ms2).engine.methods =
        (update_methods integ engine ms).engine.methods := by
  refine ⟨by simp [update_methods_engine_eq integ engine ms h], ⟨_, update_methods_trace_eq integ engine ms h⟩, ?_⟩
  intro ms2 h2
  simp [update_methods_engine_eq integ engine ms h, update_methods_engine_eq integ engine ms2 h, h2]

/-- C1 witness: on a concrete Active integrator and two concrete methods
whose creation stamps are in the opposite order of their list position, the
engine's method list comes out as the list order of the native handles. -/
theorem C1_update_methods_order_witness :
    exInteg.cpp_exists = true ∧
    (update_methods exInteg exEngine exMethods).engine.methods = [10, 20] := by
  refine ⟨rfl, ?_⟩
  have h := C1_update_methods_order exInteg exEngine exMethods rfl
  simpa [exMethods] using h.1

/-- C2 counterexample: with an initialized MPCD system, constructing with
`dt = -1 ≤ 0` and `period = 0 < 1` does not fail at all: it succeeds and
registers the native integrator with the system, contradicting the claimed
`InvalidArgument` failure with no native registration. -/
theorem C2_counterexample :
    ((-1 : Rat) ≤ 0 ∨ (0 : Int) < 1) ∧
    (integrator_init exCtx (-1) 0 PyVal.pyNone).outcome.isOk = true ∧
    (integrator_init exCtx (-1) 0 PyVal.pyNone).world.registered = true ∧
    NativeCall.setIntegrator ∈ (integrator_init exCtx (-1) 0 PyVal.pyNone).world.trace := by
  exact ⟨Or.inl (by norm_num), by decide, by decide, by decide⟩

/-- C2 (amended): the constructor performs no range validation of
`timeStep` or `period`: for every `timeStep` and `period` — including
`timeStep ≤ 0` and `period < 1` — construction with an initialized MPCD
system and the default anisotropy argument succeeds and registers the
native integrator with the system. -/
theorem C2_no_range_validation (ctx : Context) (sys : MPCDSystem)
    (dt : Rat) (period : Int) (h : ctx.mpcd = some sys) :
    (integrator_init ctx dt period PyVal.pyNone).outcome.isOk = true ∧
    (integrator_init ctx dt period PyVal.pyNone).world.registered = true ∧
    NativeCall.setIntegrator ∈ (integrator_init ctx dt period PyVal.pyNone).world.trace := by
  cases hcm : sys.hasComm <;> cases hcu : ctx.cudaEnabled <;>
    simp [integrator_init, h, hcm, hcu, InitOutcome.isOk]

/-- C2 witness: the amended theorem at `dt = -1`, `period = 0`. -/
theorem C2_no_range_validation_witness :
    exCtx.mpcd = some { hasComm := false } ∧
    (integrator_init exCtx (-1) 0 PyVal.pyNone).outcome.isOk = true := by
  exact ⟨rfl, (C2_no_range_validation exCtx { hasComm := false } (-1) 0 rfl).1⟩

/-- C3: calling `set_params` with an anisotropy value that is not a key of
`_aniso_modes` raises the "Error setting anisotropic integration mode."
`RuntimeError`, leaves the stored `aniso` field and the engine's
anisotropic mode unchanged, and makes no `setAnisotropicMode` native
call. -/
theorem C3_unknown_aniso_rejected (integ : Integrator) (engine : Engine)
    (X : PyVal) (hact : integ.cpp_exists = true) (hX : aniso_modes X = none) :
    (set_params integ engine none X).error =
      some (PyError.runtimeError "Error setting anisotropic integration mode.") ∧
    (set_params integ engine none X).integ.aniso = integ.aniso ∧
    (set_params integ engine none X).engine.anisoMode = engine.anisoMode ∧
    ∀ m, NativeCall.setAnisotropicMode m ∉ (set_params integ engine none X).trace := by
  cases X with
  | pyNone => simp [aniso_modes] at hX
  | pyTrue => simp [aniso_modes] at hX
  | pyFalse => simp [aniso_modes] at hX
  | pyOther t => simp [set_params, check_initialization, hact, aniso_modes]

/-- C3 witness: the theorem at a concrete Active integrator and the unknown
anisotropy value `pyOther 0`. -/
theorem C3_unknown_aniso_rejected_witness :
    exInteg.cpp_exists = true ∧ aniso_modes (PyVal.pyOther 0) = none ∧
    (set_params exInteg exEngine none (PyVal.pyOther 0)).integ.aniso = exInteg.aniso := by
  exact ⟨rfl, rfl, (C3_unknown_aniso_rejected exInteg exEngine (PyVal.pyOther 0) rfl rfl).2.1⟩

end MPCD

namespace MPCD

/-- C4 counterexample: on a concrete Active integrator with `dt = 1`, the
call `set_params(dt = 5, aniso = pyOther 0)` raises on the unknown
anisotropy value but has already changed the stored time step to `5` and
made the `setDeltaT 5` native call — the failing call does not leave all
controller state unchanged. -/
theorem C4_counterexample :
    aniso_modes (PyVal.pyOther 0) = none ∧
    (set_params exInteg exEngine (some 5) (PyVal.pyOther 0)).error =
      some (PyError.runtimeError "Error setting anisotropic integration mode.") ∧
    (set_params exInteg exEngine (some 5) (PyVal.pyOther 0)).integ.dt = 5 ∧
    exInteg.dt ≠ 5 ∧
    NativeCall.setDeltaT 5 ∈ (set_params exInteg exEngine (some 5) (PyVal.pyOther 0)).trace := by
  refine ⟨rfl, by decide, by decide, by decide, by decide⟩

/-- C4 (amended): `set_params` applies its fields in order and validates
the anisotropy value only when it reaches that field: on a call
`set_params(dt = d, aniso = X)` with `X` unrecognized, the call raises
`InvalidArgument` and leaves the anisotropy state unchanged with no
`setAnisotropicMode` native call, but the time step has already been
updated to `d` both in the controller and through the native `setDeltaT`
call — the time step is not left unchanged. -/
theorem C4_dt_applied_before_aniso_validation (integ : Integrator)
    (engine : Engine) (d : Rat) (X : PyVal)
    (hact : integ.cpp_exists = true) (hX : aniso_modes X = none) :
    (set_params integ engine (some d) X).error =
      some (PyError.runtimeError "Error setting anisotropic integration mode.") ∧
    (set_params integ engine (some d) X).integ.dt = d ∧
    (set_params integ engine (some d) X).engine.deltaT = d ∧
    NativeCall.setDeltaT d ∈ (set_params integ engine (some d) X).trace ∧
    (set_params integ engine (some d) X).integ.aniso = integ.aniso ∧
    (set_params integ engine (some d) X).engine.anisoMode = engine.anisoMode ∧
    ∀ m, NativeCall.setAnisotropicMode m ∉ (set_params integ engine (some d) X).trace := by
  cases X with
  | pyNone => simp [aniso_modes] at hX
  | pyTrue => simp [aniso_modes] at hX
  | pyFalse => simp [aniso_modes] at hX
  | pyOther t => simp [set_params, check_initialization, hact, aniso_modes]

/-- C4 witness: the amended theorem at the concrete failing call of the
counterexample. -/
theorem C4_dt_applied_before_aniso_validation_witness :
    exInteg.cpp_exists = true ∧ aniso_modes (PyVal.pyOther 0) = none ∧
    (set_params exInteg exEngine (some 5) (PyVal.pyOther 0)).integ.dt = 5 := by
  exact ⟨rfl, rfl,
    (C4_dt_applied_before_aniso_validation exInteg exEngine 5 (PyVal.pyOther 0) rfl rfl).2.1⟩

/-- C5: on an Active integrator, `update_methods` raises no error whatever
the slot occupancy; it pushes the streaming slot to the engine when
occupied and otherwise warns and detaches streaming from the engine, and
symmetrically for the collision slot. -/
theorem C5_slot_policy (integ : Integrator) (engine : Engine)
    (ms : List Method) (hact : integ.cpp_exists = true) :
    (update_methods integ engine ms).error = none ∧
    (update_methods integ engine ms).engine.streaming = integ.stream ∧
    (update_methods integ engine ms).engine.collision = integ.collide ∧
    (integ.stream.isSome = true →
      NativeCall.setStreamingMethod ∈ (update_methods integ engine ms).trace) ∧
    (integ.stream = none →
      Msg.warning "Running mpcd without a streaming method!" ∈ (update_methods integ engine ms).msgs ∧
      NativeCall.removeStreamingMethod ∈ (update_methods integ engine ms).trace) ∧
    (integ.collide.isSome = true →
      NativeCall.setCollisionMethod ∈ (update_methods integ engine ms).trace) ∧
    (integ.collide = none →
      Msg.warning "Running mpcd without a collision method!" ∈ (update_methods integ engine ms).msgs ∧
      NativeCall.removeCollisionMethod ∈ (update_methods integ engine ms).trace) := by
  refine ⟨update_methods_error_eq integ engine ms hact, ?_, ?_, ?_, ?_, ?_, ?_⟩ <;>
    simp [update_methods_engine_eq integ engine ms hact,
      update_methods_trace_eq integ engine ms hact,
      update_methods_msgs_eq integ engine ms hact] <;>
    cases hs : integ.stream <;> cases hc : integ.collide <;> simp

/-- C5 witness: on a concrete Active integrator with both slots empty and
an empty active-methods list, both warnings are emitted and no error is
raised. -/
theorem C5_slot_policy_witness :
    exInteg.cpp_exists = true ∧
    (update_methods exInteg exEngine []).error = none ∧
    Msg.warning "Running mpcd without a streaming method!" ∈ (update_methods exInteg exEngine []).msgs ∧
    Msg.warning "Running mpcd without a collision method!" ∈ (update_methods exInteg exEngine []).msgs := by
  have h := C5_slot_policy exInteg exEngine [] rfl
  exact ⟨rfl, h.1, (h.2.2.2.2.1 rfl).1, (h.2.2.2.2.2.2 rfl).1⟩

end MPCD

namespace MPCD

/-- C6: for every `timeStep > 0` and `period ≥ 1`, successful construction
(initialized MPCD system, recognized anisotropy argument) yields an
integrator storing the given time step, with the collision slot empty and a
default streaming strategy whose class is the CPU variant
(`StreamingMethod`) when CUDA is not enabled and the GPU variant
(`StreamingMethodGPU`) otherwise. -/
theorem C6_construct_success (ctx : Context) (sys : MPCDSystem)
    (dt : Rat) (period : Int) (aniso : PyVal) (m : AnisoMode)
    (hctx : ctx.mpcd = some sys) (hdt : 0 < dt) (hp : 1 ≤ period)
    (ha : aniso_modes aniso = some m) :
    ∃ integ, (integrator_init ctx dt period aniso).outcome = InitOutcome.ok integ ∧
      integ.dt = dt ∧
      integ.collide = none ∧
      ∃ s, integ.stream = some s ∧
        s.cls = (if ctx.cudaEnabled then StreamClass.StreamingMethodGPU
                 else StreamClass.StreamingMethod) := by
  cases aniso with
  | pyOther t => simp [aniso_modes] at ha
  | pyNone =>
      cases hcu : ctx.cudaEnabled <;>
        simp [integrator_init, hctx, hcu]
  | pyTrue =>
      cases hcu : ctx.cudaEnabled <;>
        simp [integrator_init, hctx, hcu, set_params, check_initialization, aniso_modes]
  | pyFalse =>
      cases hcu : ctx.cudaEnabled <;>
        simp [integrator_init, hctx, hcu, set_params, check_initialization, aniso_modes]

/-- C6 witness: the theorem at `dt = 1`, `period = 1`, default anisotropy,
on a CPU-only context. -/
theorem C6_construct_success_witness :
    exCtx.mpcd = some { hasComm := false } ∧ (0 : Rat) < 1 ∧ (1 : Int) ≤ 1 ∧
    aniso_modes PyVal.pyNone = some AnisoMode.Automatic ∧
    ∃ integ, (integrator_init exCtx 1 1 PyVal.pyNone).outcome = InitOutcome.ok integ ∧
      integ.dt = 1 ∧ integ.collide = none := by
  refine ⟨rfl, by norm_num, by norm_num, rfl, ?_⟩
  obtain ⟨integ, h1, h2, h3, -⟩ :=
    C6_construct_success exCtx { hasComm := false } 1 1 PyVal.pyNone AnisoMode.Automatic
      rfl (by norm_num) (by norm_num) rfl
  exact ⟨integ, h1, h2, h3⟩

/-- C7: `update_methods` is idempotent: running it a second time with the
same integrator state and the same active-methods list leaves the engine
exactly as after the first run (in particular no method is duplicated in
the engine's list), and emits the same messages and native calls. -/
theorem C7_update_methods_idempotent (integ : Integrator) (engine : Engine)
    (ms : List Method) :
    (update_methods integ (update_methods integ engine ms).engine ms).engine =
      (update_methods integ engine ms).engine ∧
    (update_methods integ (update_methods integ engine ms).engine ms).msgs =
      (update_methods integ engine ms).msgs ∧
    (update_methods integ (update_methods integ engine ms).engine ms).trace =
      (update_methods integ engine ms).trace := by
  by_cases h : integ.cpp_exists = true
  · refine ⟨?_, ?_, ?_⟩
    · rw [update_methods_engine_eq integ engine ms h,
        update_methods_engine_eq integ _ ms h]
    · rw [update_methods_msgs_eq integ engine ms h,
        update_methods_msgs_eq integ _ ms h]
    · rw [update_methods_trace_eq integ engine ms h,
        update_methods_trace_eq integ _ ms h]
  · have h' : integ.cpp_exists = false := by
      cases hb : integ.cpp_exists
      · rfl
      · exact absurd hb h
    simp [update_methods, check_initialization, h']

end MPCD

namespace MPCD

/-- C8: every mutating operation requires the Active state.  Constructing
with no MPCD simulation context raises the not-initialized `RuntimeError`
(the spec's `NotInitializedError`) with no native call, no engine creation
and no registration; and `set_params` or `update_methods` invoked on a
controller without an attached native integrator (before construction
completes or after teardown) fails with `NotInitializedError` and leaves
every piece of state untouched with no native call.  The
`check_initialization` guard is modelled from the spec since its body is
outside the visible file. -/
theorem C8_mutating_ops_require_active :
    (∀ (ctx : Context) (dt : Rat) (period : Int) (aniso : PyVal),
      ctx.mpcd = none →
        (integrator_init ctx dt period aniso).outcome =
          InitOutcome.error (PyError.runtimeError "MPCD system not initialized") ∧
        (integrator_init ctx dt period aniso).world.registered = false ∧
        (integrator_init ctx dt period aniso).world.engine = none ∧
        (integrator_init ctx dt period aniso).world.trace = []) ∧
    (∀ (integ : Integrator) (engine : Engine) (dtArg : Option Rat) (anisoArg : PyVal),
      integ.cpp_exists = false →
        (set_params integ engine dtArg anisoArg).error = some PyError.notInitializedError ∧
        (set_params integ engine dtArg anisoArg).trace = [] ∧
        (set_params integ engine dtArg anisoArg).engine = engine ∧
        (set_params integ engine dtArg anisoArg).integ = integ) ∧
    (∀ (integ : Integrator) (engine : Engine) (ms : List Method),
      integ.cpp_exists = false →
        (update_methods integ engine ms).error = some PyError.notInitializedError ∧
        (update_methods integ engine ms).trace = [] ∧
        (update_methods integ engine ms).engine = engine) := by
  refine ⟨?_, ?_, ?_⟩
  · intro ctx dt period aniso h
    simp [integrator_init, h]
  · intro integ engine dtArg anisoArg h
    simp [set_params, check_initialization, h]
  · intro integ engine ms h
    simp [update_methods, check_initialization, h]

/-- C8 witness: the theorem at a context with no MPCD system and at a
concrete non-Active integrator. -/
theorem C8_mutating_ops_require_active_witness :
    exCtxNoMPCD.mpcd = none ∧
    (integrator_init exCtxNoMPCD 1 1 PyVal.pyNone).world.registered = false ∧
    exIntegInactive.cpp_exists = false ∧
    (set_params exIntegInactive exEngine (some 5) PyVal.pyTrue).error =
      some PyError.notInitializedError ∧
    (update_methods exIntegInactive exEngine exMethods).engine = exEngine := by
  have h := C8_mutating_ops_require_active
  exact ⟨rfl, (h.1 exCtxNoMPCD 1 1 PyVal.pyNone rfl).2.1,
    rfl, (h.2.1 exIntegInactive exEngine (some 5) PyVal.pyTrue rfl).1,
    (h.2.2 exIntegInactive exEngine exMethods rfl).2.2⟩

/-- C9: with an initialized MPCD system, constructing with any `dt` and
`period` but an unrecognized anisotropy value raises the anisotropic-mode
`RuntimeError` only after the native integrator has been created and
installed via `setIntegrator`: the failed construction leaves the engine
registered with the system. -/
theorem C9_invalid_aniso_registers_then_raises (ctx : Context)
    (sys : MPCDSystem) (dt : Rat) (period : Int) (t : Nat)
    (hctx : ctx.mpcd = some sys) :
    (integrator_init ctx dt period (PyVal.pyOther t)).outcome =
      InitOutcome.error (PyError.runtimeError "Error setting anisotropic integration mode.") ∧
    (integrator_init ctx dt period (PyVal.pyOther t)).world.registered = true ∧
    NativeCall.setIntegrator ∈ (integrator_init ctx dt period (PyVal.pyOther t)).world.trace ∧
    (integrator_init ctx dt period (PyVal.pyOther t)).world.engine =
      some { deltaT := dt, anisoMode := none, methods := [],
             streaming := none, collision := none } := by
  cases hcm : sys.hasComm <;>
    simp [integrator_init, hctx, hcm, set_params, check_initialization, aniso_modes]

/-- C9 witness: the theorem at concrete inputs `dt = 1`, `period = 1`,
anisotropy `pyOther 7`. -/
theorem C9_invalid_aniso_registers_then_raises_witness :
    exCtx.mpcd = some { hasComm := false } ∧
    (integrator_init exCtx 1 1 (PyVal.pyOther 7)).outcome =
      InitOutcome.error (PyError.runtimeError "Error setting anisotropic integration mode.") ∧
    (integrator_init exCtx 1 1 (PyVal.pyOther 7)).world.registered = true := by
  have h := C9_invalid_aniso_registers_then_raises exCtx { hasComm := false } 1 1 7 rfl
  exact ⟨rfl, h.1, h.2.1⟩

/-- C10: calling `set_params` with `aniso = None` never changes the
anisotropy mode — the stored `aniso` field is unchanged and no
`setAnisotropicMode` native call is made, whatever the `dt` argument and
whether or not the controller is Active — even though the `_aniso_modes`
table maps `None` to the `Automatic` mode, so `set_params` can never
explicitly select `Automatic` once another mode has been set. -/
theorem C10_none_aniso_never_selects_automatic (integ : Integrator)
    (engine : Engine) (dtArg : Option Rat) :
    aniso_modes PyVal.pyNone = some AnisoMode.Automatic ∧
    (set_params integ engine dtArg PyVal.pyNone).integ.aniso = integ.aniso ∧
    (set_params integ engine dtArg PyVal.pyNone).engine.anisoMode = engine.anisoMode ∧
    ∀ m, NativeCall.setAnisotropicMode m ∉ (set_params integ engine dtArg PyVal.pyNone).trace := by
  cases hb : integ.cpp_exists <;> cases dtArg <;>
    simp [set_params, check_initialization, hb, aniso_modes]

end MPCD
